import Mathlib

/-!
Verification of the synchronization core of the Sankhya tracker-integration
service (Node.js).  The JavaScript sources are shallowly embedded: pure
functions become Lean functions, the stateful job/session managers become
explicit state-transition functions, machine time is modelled as `Nat`
(seconds since a fixed origin) and JavaScript `Date` objects as
`Option Nat` (where `none` stands for an *Invalid Date*, whose `getTime()`
is `NaN`).  Fallible paths return `Option`/`Except`.
-/

namespace Rastreadores

/-! ## JavaScript string and date primitives

These model the handful of ECMAScript primitives the repository's helper
functions rely on: `String.prototype.split` with a single-character
separator, `String.prototype.replace` (first occurrence only) and
`new Date(isoString)` parsing of the ISO core `YYYY-MM-DD[THH:mm:ss]`
format, which is the only shape the code ever feeds to the constructor.
A string not matching that shape yields an Invalid Date (`none`). -/

/-- Digit value of a character, `none` when not a decimal digit. -/
def digitVal (c : Char) : Option Nat :=
  if c.isDigit then some (c.toNat - 48) else none

/-- Two-digit decimal number from two characters. -/
def twoDigits (a b : Char) : Option Nat :=
  match digitVal a, digitVal b with
  | some x, some y => some (10 * x + y)
  | _, _ => none

/-- Four-digit decimal number from four characters. -/
def fourDigits (a b c d : Char) : Option Nat :=
  match twoDigits a b, twoDigits c d with
  | some x, some y => some (100 * x + y)
  | _, _ => none

/-- Gregorian leap-year test. -/
def isLeapYear (y : Nat) : Bool :=
  (y % 4 = 0 && y % 100 ≠ 0) || y % 400 = 0

/-- Number of days in month `m` (1-12) of year `y`. -/
def daysInMonth (y m : Nat) : Nat :=
  if m = 2 then (if isLeapYear y then 29 else 28)
  else if m = 4 ∨ m = 6 ∨ m = 9 ∨ m = 11 then 30
  else 31

/-- Days in the months of year `y` strictly before month `m`. -/
def daysBeforeMonth (y m : Nat) : Nat :=
  (List.range m).foldl (fun acc k => if 1 ≤ k then acc + daysInMonth y k else acc) 0

/-- Days in proleptic Gregorian years `0, …, y-1` (year 0 is a leap year). -/
def daysBeforeYear (y : Nat) : Nat :=
  365 * y + (y + 3) / 4 - (y + 99) / 100 + (y + 399) / 400

/-- Absolute instant, in seconds since 0000-01-01 00:00:00, of the civil
date-time `y-m-d hh:mi:ss`.  Chronological order of civil date-times is
reflected by `<` on the result, which is all the staleness comparisons in
the code use. -/
def civilToInstant (y m d hh mi ss : Nat) : Nat :=
  (daysBeforeYear y + daysBeforeMonth y m + (d - 1)) * 86400 + hh * 3600 + mi * 60 + ss

/-- Validity of a civil date-time (what the ECMAScript ISO parser accepts). -/
def civilValid (y m d hh mi ss : Nat) : Bool :=
  1 ≤ m && m ≤ 12 && 1 ≤ d && d ≤ daysInMonth y m && hh ≤ 23 && mi ≤ 59 && ss ≤ 59

/-- `new Date(s)` on the ISO core format: `YYYY-MM-DDTHH:mm:ss` or the
date-only `YYYY-MM-DD`.  Returns the instant of a valid date-time, `none`
(Invalid Date) otherwise. -/
def jsDateParse (s : String) : Option Nat :=
  match s.data with
  | [y1, y2, y3, y4, c1, m1, m2, c2, d1, d2] =>
    match fourDigits y1 y2 y3 y4, twoDigits m1 m2, twoDigits d1 d2 with
    | some y, some m, some d =>
      if c1 = '-' && c2 = '-' && civilValid y m d 0 0 0 then
        some (civilToInstant y m d 0 0 0)
      else none
    | _, _, _ => none
  | [y1, y2, y3, y4, c1, m1, m2, c2, d1, d2, t, h1, h2, c3, n1, n2, c4, s1, s2] =>
    match fourDigits y1 y2 y3 y4, twoDigits m1 m2, twoDigits d1 d2,
          twoDigits h1 h2, twoDigits n1 n2, twoDigits s1 s2 with
    | some y, some m, some d, some hh, some mi, some ss =>
      if c1 = '-' && c2 = '-' && t = 'T' && c3 = ':' && c4 = ':'
          && civilValid y m d hh mi ss then
        some (civilToInstant y m d hh mi ss)
      else none
    | _, _, _, _, _, _ => none
  | _ => none

/-- `str.replace(a, b)` for one-character patterns: replaces only the first
occurrence, as the JavaScript string-pattern `replace` does. -/
def jsReplaceFirst : List Char → Char → Char → List Char
  | [], _, _ => []
  | c :: cs, a, b => if c = a then b :: cs else c :: jsReplaceFirst cs a b

/-- `str.split(sep)` for a one-character separator; like JavaScript it
returns `[""]` on the empty string and keeps empty fields. -/
def jsSplitChar (sep : Char) : List Char → List (List Char)
  | [] => [[]]
  | c :: cs =>
    let rest := jsSplitChar sep cs
    if c = sep then [] :: rest
    else match rest with
      | [] => [[c]]
      | r :: rs => (c :: r) :: rs

/-- `str.split(sep)` producing strings. -/
def jsSplit (s : String) (sep : Char) : List String :=
  (jsSplitChar sep s.data).map (fun l => String.mk l)

/-- JavaScript truthiness of an optional string: `undefined` and the empty
string are falsy. -/
def truthyStr : Option String → Bool
  | none => false
  | some s => s ≠ ""

/-- `date > t` on a JavaScript `Date` object modelled as `Option Nat`:
`getTime()` of an Invalid Date is `NaN`, and `NaN > t` is `false`. -/
def jsDateAfter (d : Option Nat) (t : Nat) : Bool :=
  match d with
  | some x => t < x
  | none => false

/-! ## src/src/utils/helpers.js -/

/-- `formatSankhyaDate` from src/src/utils/helpers.js.  Splits the API date
`YYYY-MM-DD HH:mm:ss` and reassembles it as `DD/MM/YYYY HH:mm:ss`; when a
date component or the time part is missing (JavaScript destructuring yields
`undefined`, and the empty string is also falsy) the thrown error is caught
and the current date-time formatted in pt-BR — passed here as `now`, since
the wall clock is outside the embedding — is returned instead. -/
def formatSankhyaDate (apiDate : String) (now : String) : String :=
  let parts := jsSplit apiDate ' '
  let datePart := (parts.get? 0).getD ""
  let timePart := parts.get? 1
  let dparts := jsSplit datePart '-'
  let year := (dparts.get? 0).getD ""
  let month := dparts.get? 1
  let day := dparts.get? 2
  if year ≠ "" && truthyStr month && truthyStr day && truthyStr timePart then
    (day.getD "") ++ "/" ++ (month.getD "") ++ "/" ++ year ++ " " ++ (timePart.getD "")
  else now

/-- `parseAtualcargoDate` from src/src/utils/helpers.js:
`new Date(apiDate.replace(' ', 'T'))`.  The result is the valid instant,
or `none` for an Invalid Date. -/
def parseAtualcargoDate (apiDate : String) : Option Nat :=
  jsDateParse (String.mk (jsReplaceFirst apiDate.data ' ' 'T'))

/-- The `Date` *object* returned by `parseAtualcargoDate`, as seen by its
callers: the `try`/`catch` in the source returns `null` (outer `none`) only
when the argument is not a string — `String.prototype.replace` is the only
expression there that can throw — so for the string inputs modelled here
the object is always present, even when it is an Invalid Date. -/
def parseAtualcargoDateJS (apiDate : String) : Option (Option Nat) :=
  some (parseAtualcargoDate apiDate)

/-! ## src/src/services/sankhya.service.js — savePositionsToSankhya

The destination write for vehicles.  Network transport is outside the
embedding: the function below is the record-selection and record-building
loop, returning the batch (`recordsToSave`) that the source then posts via
`DatasetSP.save`, together with the four counters it maintains.  Numeric
payload fields (`latitude`, `longitude`, `speed`) reach this loop already
stringified in the source (`toString()`), so they are carried as strings. -/

/-- One Atualcargo vehicle position as consumed by `savePositionsToSankhya`. -/
structure VehiclePosition where
  plate : String
  date : String
  latitude : String
  longitude : String
  speed : String
  ignition : String
  proximity : Option String
  addressStreet : Option String
  addressCity : Option String
deriving Repr, DecidableEq

/-- One row staged for the `DatasetSP.save` call on `AD_LOCATCAR`
(foreign key `CODVEICULO` plus the field values `'2'`-`'9'`; the `LOCAL`
field is named `localText` because `local` is reserved in Lean). -/
structure SankhyaRecord where
  codveiculo : String
  localText : String
  dathor : String
  placa : String
  latitude : String
  longitude : String
  veloc : String
  link : String
  ignit : String
deriving Repr, DecidableEq

/-- The `local` expression of the source:
`pos.proximity || ⟨street, city template⟩ || 'Endereço não disponível'`,
with JavaScript `||` short-circuiting on truthiness and `?.` yielding
`undefined` (interpolated as the string `"undefined"`). -/
def localOf (pos : VehiclePosition) : String :=
  let addr := (pos.addressStreet.getD "undefined") ++ ", " ++ (pos.addressCity.getD "undefined")
  let first := match pos.proximity with
    | some s => if s ≠ "" then s else addr
    | none => addr
  if first ≠ "" then first else "Endereço não disponível"

/-- Builds the staged row for one kept position, as in the `push` of the
source (link URL, `ignition` mapped `"ON" → "S"` else `"N"`, date formatted
by `formatSankhyaDate`). -/
def buildRecord (pos : VehiclePosition) (codveiculo : Int) (now : String) : SankhyaRecord :=
  { codveiculo := toString codveiculo
    localText := localOf pos
    dathor := formatSankhyaDate pos.date now
    placa := pos.plate
    latitude := pos.latitude
    longitude := pos.longitude
    veloc := pos.speed
    link := "https://www.google.com/maps?q=" ++ pos.latitude ++ "," ++ pos.longitude
    ignit := if pos.ignition = "ON" then "S" else "N" }

/-- Result of the selection loop of `savePositionsToSankhya`. -/
structure SaveResult where
  recordsToSave : List SankhyaRecord
  processedCount : Nat
  ignoredCount : Nat
  invalidDateCount : Nat
  unmappedCount : Nat
deriving Repr, DecidableEq

/-- The selection loop of `savePositionsToSankhya`
(src/src/services/sankhya.service.js).  For each position:
`vehicleMap.get(pos.plate)` with the JavaScript truthiness test
`if (codveiculo)` (so a missing plate *or* the code `0` counts as
unmapped); then the `if (!newPositionDate)` invalid-date check on the
`Date` object; then keep iff there is no stored last date or
`newPositionDate.getTime() > lastSavedDate.getTime()` (an Invalid Date
compares as `NaN`, i.e. never greater). -/
def savePositionsToSankhya (vehicleMap : String → Option Int)
    (lastTimestampsMap : Int → Option Nat) (now : String) :
    List VehiclePosition → SaveResult
  | [] => { recordsToSave := [], processedCount := 0, ignoredCount := 0
            invalidDateCount := 0, unmappedCount := 0 }
  | pos :: rest =>
    let r := savePositionsToSankhya vehicleMap lastTimestampsMap now rest
    match vehicleMap pos.plate with
    | some codveiculo =>
      if codveiculo ≠ 0 then
        match parseAtualcargoDateJS pos.date with
        | none =>
          { r with processedCount := r.processedCount + 1
                   invalidDateCount := r.invalidDateCount + 1 }
        | some newPositionDate =>
          let keep := match lastTimestampsMap codveiculo with
            | none => true
            | some lastTime => jsDateAfter newPositionDate lastTime
          if keep then
            { r with processedCount := r.processedCount + 1
                     recordsToSave := buildRecord pos codveiculo now :: r.recordsToSave }
          else
            { r with processedCount := r.processedCount + 1
                     ignoredCount := r.ignoredCount + 1 }
      else { r with unmappedCount := r.unmappedCount + 1 }
    | none => { r with unmappedCount := r.unmappedCount + 1 }

/-- The claim's inclusion test, transcribed from the specification wording
(§4.3 step 4): the identifier resolves to a destination identity, and
either no committed timestamp exists for that identity or the record's
parsed timestamp is strictly greater than the committed one, compared as
absolute instants. -/
def specKeepsPosition (vehicleMap : String → Option Int)
    (lastTimestampsMap : Int → Option Nat) (pos : VehiclePosition) : Bool :=
  match vehicleMap pos.plate with
  | none => false
  | some c =>
    match lastTimestampsMap c with
    | none => true
    | some last =>
      match parseAtualcargoDate pos.date with
      | some t => last < t
      | none => false

/-- The batch the specification says must be passed to the destination
write: exactly the positions accepted by `specKeepsPosition`, staged as
rows. -/
def specBatch (vehicleMap : String → Option Int)
    (lastTimestampsMap : Int → Option Nat) (now : String)
    (positions : List VehiclePosition) : List SankhyaRecord :=
  positions.filterMap (fun pos =>
    match vehicleMap pos.plate with
    | some c =>
      if specKeepsPosition vehicleMap lastTimestampsMap pos then
        some (buildRecord pos c now)
      else none
    | none => none)

/-- As `specBatch`, but amended by the counterexample: the resolved
destination identity must also be nonzero, because the source's truthiness
test `if (codveiculo)` treats the identity `0` as unmapped. -/
def specBatchNonzero (vehicleMap : String → Option Int)
    (lastTimestampsMap : Int → Option Nat) (now : String)
    (positions : List VehiclePosition) : List SankhyaRecord :=
  positions.filterMap (fun pos =>
    match vehicleMap pos.plate with
    | some c =>
      if c ≠ 0 && specKeepsPosition vehicleMap lastTimestampsMap pos then
        some (buildRecord pos c now)
      else none
    | none => none)

/-! ## Normalized records and the Mapper/Deduplicator
(src/src/sankhya/sankhya.processor.js) -/

/-- One normalized position record as stored in a job's fetch cache and
consumed by `processPositions` (`type` is `'vehicle'` or `'isca'`). -/
structure StdPosition where
  type : String
  identifier : String
  date : String
deriving Repr, DecidableEq

/-- A kept vehicle record, `{ ...vehicle, codveiculo }` in the source. -/
structure VehicleInsert where
  pos : StdPosition
  codveiculo : Int
deriving Repr, DecidableEq

/-- A kept tag record, `{ ...isca, sequencia }` in the source. -/
structure IscaInsert where
  pos : StdPosition
  sequencia : Int
deriving Repr, DecidableEq

/-- `new Map(entries)` lookup: like the JavaScript `Map` constructor, a
later entry for the same key overwrites an earlier one. -/
def jsMapGet {α β : Type} [DecidableEq α] (entries : List (α × β)) (k : α) : Option β :=
  (entries.reverse.find? (fun e => e.1 = k)).map (fun e => e.2)

/-- `parseSankhyaQueryDate` from src/src/utils/helpers.js: slices the query
string `DDMMYYYY HH:mm:ss` by `substring` (which clamps and never throws)
and feeds `YYYY-MM-DDTHH:mm:ss` to `new Date`. -/
def parseSankhyaQueryDate (sankhyaDate : String) : Option Nat :=
  let day := String.mk (sankhyaDate.data.take 2)
  let month := String.mk ((sankhyaDate.data.drop 2).take 2)
  let year := String.mk ((sankhyaDate.data.drop 4).take 4)
  let time := String.mk (sankhyaDate.data.drop 9)
  jsDateParse (year ++ "-" ++ month ++ "-" ++ day ++ "T" ++ time)

/-- Modelled from the spec: `isNewer` from `src/utils/dateTime.js`, which
sankhya.processor.js imports but which is missing from the repository
sources (only its callers are present).  Per §4.3 step 4 of the spec, a
record is kept iff no prior committed timestamp exists, or its timestamp
parses and is strictly later than the prior one, compared as absolute
instants; a record whose timestamp does not parse is dropped. -/
def isNewer (recordDate : String) (lastDathor : Option String) : Bool :=
  match lastDathor with
  | none => true
  | some s =>
    match parseAtualcargoDate recordDate, parseSankhyaQueryDate s with
    | some t, some last => last < t
    | _, _ => false

/-- Output of one `processPositions` run.  `batchAfter` is the cached batch
as it stands when the run finishes: the source only reads the batch
(`filter`, `map`, `for…of`) and pushes fresh objects built by spread, so
the embedding returns the input batch unchanged. -/
structure ProcessOutput where
  newVehicleRecords : List VehicleInsert
  newIscaRecords : List IscaInsert
  batchAfter : List StdPosition
deriving Repr, DecidableEq

/-- The Mapper/Deduplicator `processPositions`
(src/src/sankhya/sankhya.processor.js), given the four fresh query results
(plate→code and tag-number→sequence mapping rows, and the two
last-timestamp histories).  A record whose identifier does not resolve —
including, by the `if (!codveiculo)` / `if (!sequencia)` truthiness tests,
one resolving to `0` — is dropped; the rest are filtered by `isNewer`
against the history entry of their resolved identity. -/
def processPositions (standardPositions : List StdPosition)
    (vehicleMappingResult iscaMappingResult : List (String × Int))
    (vehicleHistoryResult iscaHistoryResult : List (Int × String)) : ProcessOutput :=
  let vehicles := standardPositions.filter (fun p => p.type = "vehicle")
  let iscas := standardPositions.filter (fun p => p.type = "isca")
  let newVehicleRecords := vehicles.filterMap (fun v =>
    match jsMapGet vehicleMappingResult v.identifier with
    | some codveiculo =>
      if codveiculo ≠ 0 then
        if isNewer v.date (jsMapGet vehicleHistoryResult codveiculo) then
          some { pos := v, codveiculo := codveiculo }
        else none
      else none
    | none => none)
  let newIscaRecords := iscas.filterMap (fun i =>
    match jsMapGet iscaMappingResult i.identifier with
    | some sequencia =>
      if sequencia ≠ 0 then
        if isNewer i.date (jsMapGet iscaHistoryResult sequencia) then
          some { pos := i, sequencia := sequencia }
        else none
      else none
    | none => none)
  { newVehicleRecords := newVehicleRecords
    newIscaRecords := newIscaRecords
    batchAfter := standardPositions }

/-! ## Job state manager and failover controller
(src/src/jobs/job.scheduler.js — `createJobStateManager`) -/

/-- Destination configuration consumed by the state manager
(`sankhyaConfig.url`, optional `sankhyaConfig.contingencyUrl`, and
`appConfig.sankhyaRetryLimit`, whose configured default is 2). -/
structure SankhyaCfg where
  url : String
  contingencyUrl : Option String
  sankhyaRetryLimit : Nat
deriving Repr, DecidableEq

/-- Per-job mutable state created by `createJobStateManager`: the fetch
cache, the currently-active destination URL (initially the primary), and
the consecutive-network-failure counter for the primary. -/
structure JobState where
  cache : Option (List StdPosition)
  sankhyaUrl : String
  primaryLoginAttempts : Nat
deriving Repr, DecidableEq

/-- `handleSankhyaError` of `createJobStateManager`: the failover policy
applied on a destination *network* failure.  With a contingency URL
configured: while on the primary, increment the counter and swap to the
contingency (resetting the counter) once the retry limit is reached; while
on the contingency, go back to the primary and reset the counter.  Without
a contingency URL, no state changes. -/
def handleSankhyaError (cfg : SankhyaCfg) (st : JobState) : JobState :=
  match cfg.contingencyUrl with
  | some contingency =>
    if st.sankhyaUrl = cfg.url then
      let attempts := st.primaryLoginAttempts + 1
      if cfg.sankhyaRetryLimit ≤ attempts then
        { st with sankhyaUrl := contingency, primaryLoginAttempts := 0 }
      else
        { st with primaryLoginAttempts := attempts }
    else
      { st with sankhyaUrl := cfg.url, primaryLoginAttempts := 0 }
  | none => st

/-- `handleSankhyaSuccess` of `createJobStateManager`: a successful
destination phase while on the primary resets the failure counter. -/
def handleSankhyaSuccess (cfg : SankhyaCfg) (st : JobState) : JobState :=
  if st.sankhyaUrl = cfg.url then { st with primaryLoginAttempts := 0 } else st

/-! ## One job cycle (src/src/jobs/sitrax.job.js — `run`) -/

/-- Outcome of the source-fetch step when it is reached.  `positions`
carries the batch already normalized: the per-record normalizer
(sankhya.mapper.js) is a pure element-wise transform whose output shape is
`StdPosition`, and nothing in the cycle logic depends on it. -/
inductive FetchOutcome where
  | positions (l : List StdPosition)
  | sitraxError
deriving Repr, DecidableEq

/-- Outcome of the destination phase (`processPositions` and the writes)
when it is reached: full success, a `SankhyaTokenError`
(session/authentication), or any other thrown error, which the `catch` of
`run` — its message not containing `'Sitrax'` — hands to
`handleSankhyaError` (network/transient). -/
inductive SankhyaOutcome where
  | success
  | tokenError
  | networkError
deriving Repr, DecidableEq

/-- What one cycle invocation did: whether the source fetch was attempted,
and the batch handed to `processPositions`, if that step was reached. -/
structure CycleTrace where
  fetchCalled : Bool
  processedBatch : Option (List StdPosition)
deriving Repr, DecidableEq

/-- The destination stage of `run` (the `// ETAPA 2` block together with
the `catch`): if the cache holds a non-empty batch, process it — on
success, `handleSankhyaSuccess` then `clearCache`; on a
`SankhyaTokenError`, leave all job state untouched; on any other error,
apply `handleSankhyaError`.  The cache survives both failure kinds. -/
def runSankhyaStage (cfg : SankhyaCfg) (st : JobState) (dest : SankhyaOutcome)
    (fetchCalled : Bool) : JobState × CycleTrace :=
  match st.cache with
  | none => (st, { fetchCalled := fetchCalled, processedBatch := none })
  | some b =>
    if b.isEmpty then (st, { fetchCalled := fetchCalled, processedBatch := none })
    else
      match dest with
      | .success =>
        let st' := handleSankhyaSuccess cfg st
        ({ st' with cache := none }, { fetchCalled := fetchCalled, processedBatch := some b })
      | .tokenError => (st, { fetchCalled := fetchCalled, processedBatch := some b })
      | .networkError =>
        (handleSankhyaError cfg st, { fetchCalled := fetchCalled, processedBatch := some b })

/-- One invocation of `run` from src/src/jobs/sitrax.job.js: if the cache
is empty, fetch (an empty or absent result ends the cycle idle; a thrown
source error is caught by the `'Sitrax'` branch, which clears the cache);
otherwise skip the fetch, then run the destination stage on the cached
batch. -/
def runSitraxCycle (cfg : SankhyaCfg) (st : JobState) (fetch : FetchOutcome)
    (dest : SankhyaOutcome) : JobState × CycleTrace :=
  match st.cache with
  | none =>
    match fetch with
    | .sitraxError =>
      ({ st with cache := none }, { fetchCalled := true, processedBatch := none })
    | .positions l =>
      if l.isEmpty then (st, { fetchCalled := true, processedBatch := none })
      else runSankhyaStage cfg { st with cache := some l } dest true
  | some _ => runSankhyaStage cfg st dest false

/-! ## Destination session manager (api client module, `login` /
`performLogin` / `makeRequest`) -/

/-- A reply of the destination service to one posted request, as
discriminated by `makeRequest`: `status === '1'` with a body; the exact
session-invalid signal `status === '3' && statusMessage === 'Não
autorizado.'`; any other non-success status; or a transport error thrown
by the HTTP client. -/
inductive SankhyaResp where
  | ok (body : String)
  | naoAutorizado
  | failStatus (msg : String)
  | netError
deriving Repr, DecidableEq

/-- The module-level session cell (`let jsessionid = null`). -/
structure ApiSession where
  jsessionid : Option String
deriving Repr, DecidableEq

/-- What one `makeRequest` call did: its result, how many times the
request was posted, how many times `performLogin` ran, and the session
cell afterwards. -/
structure RequestTrace where
  result : Except String String
  postCount : Nat
  loginCount : Nat
  finalSession : ApiSession
deriving Repr

/-- `makeRequest` from the api client module: ensure a session (a failed
login propagates), post the request once; on the exact unauthorized signal
discard the session, log in again and retry the same request exactly once,
propagating the retry's failure; on any other non-success status or
transport error, propagate without retrying.  `initialLogin` and `reLogin`
are the results the two possible `performLogin` calls would produce
(`none` = the login itself fails); `resp1`/`resp2` the replies to the
first and the retried post. -/
def makeRequest (st : ApiSession) (initialLogin reLogin : Option String)
    (resp1 resp2 : SankhyaResp) : RequestTrace :=
  let afterEnsure : Except String (String × Nat) :=
    match st.jsessionid with
    | some s => .ok (s, 0)
    | none =>
      match initialLogin with
      | some tok => .ok (tok, 1)
      | none => .error "Falha no login da Sankhya"
  match afterEnsure with
  | .error e => { result := .error e, postCount := 0, loginCount := 1, finalSession := ⟨none⟩ }
  | .ok (sid, lc) =>
    match resp1 with
    | .ok body =>
      { result := .ok body, postCount := 1, loginCount := lc, finalSession := ⟨some sid⟩ }
    | .naoAutorizado =>
      match reLogin with
      | none =>
        { result := .error "Falha no login da Sankhya", postCount := 1
          loginCount := lc + 1, finalSession := ⟨none⟩ }
      | some tok =>
        match resp2 with
        | .ok body =>
          { result := .ok body, postCount := 2, loginCount := lc + 1
            finalSession := ⟨some tok⟩ }
        | .netError =>
          { result := .error "Timeout da API Sankhya", postCount := 2
            loginCount := lc + 1, finalSession := ⟨none⟩ }
        | _ =>
          { result := .error "Falha na requisição Sankhya após re-autenticar"
            postCount := 2, loginCount := lc + 1, finalSession := ⟨some tok⟩ }
    | .failStatus msg =>
      { result := .error ("Erro na requisição Sankhya: " ++ msg), postCount := 1
        loginCount := lc, finalSession := ⟨some sid⟩ }
    | .netError =>
      { result := .error "Timeout da API Sankhya", postCount := 1
        loginCount := lc, finalSession := ⟨none⟩ }

/-! ## Single-flight login (api client module, `login`)

The event-loop turns that touch the session cells are modelled as atomic
events: `login()` runs synchronously up to either returning, awaiting the
stored promise, or storing a fresh `performLogin()` promise; the promise
later settles in another turn (its `finally` clears `loginPromise`). -/

/-- Module state for the single-flight guard: the session cell, whether a
login promise is stored, and how many `performLogin` calls are in flight
(the quantity the single-flight guarantee bounds). -/
structure SessionMgrState where
  jsessionid : Option String
  loginPromise : Bool
  loginsInFlight : Nat
deriving Repr, DecidableEq

/-- One atomic event-loop turn affecting the login state: a caller enters
`login()`; the in-flight `performLogin` settles (successfully or not); or
`makeRequest` discards the session on the unauthorized signal. -/
inductive SessionEvent where
  | callLogin
  | loginSettles (ok : Bool) (tok : String)
  | invalidate
deriving Repr, DecidableEq

/-- Initial module state (`jsessionid = null`, `loginPromise = null`). -/
def initialSessionMgr : SessionMgrState :=
  { jsessionid := none, loginPromise := false, loginsInFlight := 0 }

/-- Transition of one event, following `login` line by line: with a
session and no pending promise, return at once; with a pending promise,
await it (no new `performLogin`); otherwise store `performLogin()` —
the only branch that starts a login.  A settling promise clears
`loginPromise` (the `finally`) and writes or clears `jsessionid`. -/
def sessionStep (st : SessionMgrState) (e : SessionEvent) : SessionMgrState :=
  match e with
  | .callLogin =>
    if st.jsessionid.isSome && !st.loginPromise then st
    else if st.loginPromise then st
    else { st with loginPromise := true, loginsInFlight := st.loginsInFlight + 1 }
  | .loginSettles ok tok =>
    if st.loginPromise then
      { jsessionid := if ok then some tok else none
        loginPromise := false
        loginsInFlight := st.loginsInFlight - 1 }
    else st
  | .invalidate => { st with jsessionid := none }

/-- The module state after a sequence of event-loop turns from start-up. -/
def runSessionEvents (evs : List SessionEvent) : SessionMgrState :=
  evs.foldl sessionStep initialSessionMgr

/-! ## Status manager (src/src/utils/statusManager.js) -/

/-- One job's status record as stored in `this.status[jobKey]`. -/
structure JobStatusEntry where
  name : String
  status : String
  message : String
  lastUpdate : String
  nextRun : Option Int
deriving Repr, DecidableEq

/-- `str.toLowerCase()`, character by character. -/
def jsToLowerCase (s : String) : String := String.mk (s.data.map Char.toLower)

/-- `this.status[jobKey] = value`: JavaScript object-property assignment
(replace the existing binding, else add one). -/
def setEntry : List (String × JobStatusEntry) → String → JobStatusEntry →
    List (String × JobStatusEntry)
  | [], k, v => [(k, v)]
  | (k', v') :: rest, k, v =>
    if k' = k then (k, v) :: rest else (k', v') :: setEntry rest k v

/-- `this.status[jobKey]` read access. -/
def lookupEntry (m : List (String × JobStatusEntry)) (k : String) : Option JobStatusEntry :=
  (m.find? (fun e => e.1 = k)).map (fun e => e.2)

/-- `updateJobStatus` from src/src/utils/statusManager.js: keys by the
lower-cased job name and stores the new record; `clearNextRun` is set
whenever the status is not `'idle'`, in which case `nextRun` is stored as
`null` regardless of the `nextRunTimestamp` argument.  `now` stands for
`new Date().toISOString()`. -/
def updateJobStatus (m : List (String × JobStatusEntry))
    (jobName status message : String) (nextRunTimestamp : Option Int)
    (now : String) : List (String × JobStatusEntry) :=
  let jobKey := jsToLowerCase jobName
  let clearNextRun := status ≠ "idle"
  setEntry m jobKey
    { name := jobName
      status := status
      message := message
      lastUpdate := now
      nextRun := if clearNextRun then none else nextRunTimestamp }

/-! ## Concrete instances used by counterexamples and witnesses -/

/-- A well-formed vehicle position (spec Scenario A). -/
def posValid : VehiclePosition :=
  { plate := "ABC1234", date := "2025-11-03 11:38:12", latitude := "-23.5"
    longitude := "-46.6", speed := "42", ignition := "ON"
    proximity := some "Patio", addressStreet := none, addressCity := none }

/-- A position whose timestamp string does not parse (month 13). -/
def posBadDate : VehiclePosition :=
  { plate := "XYZ9999", date := "2025-13-99 11:38:12", latitude := "-23.5"
    longitude := "-46.6", speed := "0", ignition := "OFF"
    proximity := some "Patio", addressStreet := none, addressCity := none }

/-- A lookup result resolving `ABC1234` to the destination identity `0`. -/
def vmZero : String → Option Int :=
  fun p => if p = "ABC1234" then some 0 else none

/-- A lookup result resolving `XYZ9999` to the destination identity `55`. -/
def vmFiftyFive : String → Option Int :=
  fun p => if p = "XYZ9999" then some 55 else none

/-- An empty last-committed-timestamp query result. -/
def lmEmpty : Int → Option Nat := fun _ => none

/-- A destination configuration with a contingency URL and the default
retry limit 2. -/
def cfgDefault : SankhyaCfg :=
  { url := "http://primary", contingencyUrl := some "http://contingency"
    sankhyaRetryLimit := 2 }

/-- Job state currently pointing at the contingency URL. -/
def stOnContingency : JobState :=
  { cache := none, sankhyaUrl := "http://contingency", primaryLoginAttempts := 0 }

/-- Fresh job state on the primary URL with a cached one-record batch. -/
def stCachedBatch : JobState :=
  { cache := some [{ type := "isca", identifier := "ISCA3969", date := "2025-11-03 11:38:12" }]
    sankhyaUrl := "http://primary", primaryLoginAttempts := 0 }

/-- Strengthened single-flight invariant: a `performLogin` call is in
flight exactly when a login promise is stored. -/
def sessionInv (st : SessionMgrState) : Prop :=
  st.loginsInFlight = if st.loginPromise then 1 else 0

/-! # Theorems -/

/-- `handleSankhyaError` never touches the fetch cache. -/
theorem handleSankhyaError_cache (cfg : SankhyaCfg) (st : JobState) :
    (handleSankhyaError cfg st).cache = st.cache := by
  unfold handleSankhyaError
  cases cfg.contingencyUrl
  · rfl
  · dsimp
    split
    · split <;> rfl
    · rfl

/-- `handleSankhyaSuccess` never touches the fetch cache. -/
theorem handleSankhyaSuccess_cache (cfg : SankhyaCfg) (st : JobState) :
    (handleSankhyaSuccess cfg st).cache = st.cache := by
  unfold handleSankhyaSuccess
  split <;> rfl

/-- C3: with a contingency endpoint configured, every destination network
failure while the primary is active increments the failure counter; when
the counter reaches the configured threshold the active URL becomes the
contingency and the counter resets to 0; with the default threshold 2,
after two consecutive network failures starting from a fresh primary state
the next attempt targets the contingency URL with the counter at 0. -/
theorem failover_reaches_contingency (cfg : SankhyaCfg) (cont : String)
    (hc : cfg.contingencyUrl = some cont) :
    (∀ st : JobState, st.sankhyaUrl = cfg.url →
      (st.primaryLoginAttempts + 1 < cfg.sankhyaRetryLimit →
        handleSankhyaError cfg st
          = { st with primaryLoginAttempts := st.primaryLoginAttempts + 1 }) ∧
      (cfg.sankhyaRetryLimit ≤ st.primaryLoginAttempts + 1 →
        handleSankhyaError cfg st
          = { st with sankhyaUrl := cont, primaryLoginAttempts := 0 })) ∧
    (cfg.sankhyaRetryLimit = 2 →
      ∀ st : JobState, st.sankhyaUrl = cfg.url → st.primaryLoginAttempts = 0 →
        (handleSankhyaError cfg (handleSankhyaError cfg st)).sankhyaUrl = cont ∧
        (handleSankhyaError cfg (handleSankhyaError cfg st)).primaryLoginAttempts = 0) := by
  constructor
  · intro st hurl
    constructor
    · intro hlt
      unfold handleSankhyaError
      rw [hc]
      simp only [hurl, if_pos rfl, if_true]
      rw [if_neg (by omega)]
    · intro hge
      unfold handleSankhyaError
      rw [hc]
      simp only [hurl, if_pos rfl, if_true]
      rw [if_pos hge]
  · intro hlim st hurl hatt
    have h1 : handleSankhyaError cfg st
        = { st with primaryLoginAttempts := st.primaryLoginAttempts + 1 } := by
      unfold handleSankhyaError
      rw [hc]
      simp only [hurl, if_pos rfl, if_true]
      rw [if_neg (by omega)]
    have h2 : handleSankhyaError cfg { st with primaryLoginAttempts := st.primaryLoginAttempts + 1 }
        = { st with sankhyaUrl := cont, primaryLoginAttempts := 0 } := by
      unfold handleSankhyaError
      rw [hc]
      simp only [hurl, if_pos rfl, if_true]
      rw [if_pos (by omega)]
    simp only [h1, h2]
    exact ⟨trivial, trivial⟩

/-- Witness for C3: from the primary with counter 0 and the default
threshold 2, two network failures put the job on the contingency URL. -/
theorem failover_reaches_contingency_witness :
    (handleSankhyaError cfgDefault (handleSankhyaError cfgDefault
      ⟨none, "http://primary", 0⟩)).sankhyaUrl = "http://contingency" ∧
    (handleSankhyaError cfgDefault (handleSankhyaError cfgDefault
      ⟨none, "http://primary", 0⟩)).primaryLoginAttempts = 0 :=
  (failover_reaches_contingency cfgDefault "http://contingency" rfl).2 rfl
    ⟨none, "http://primary", 0⟩ rfl rfl

/-- C4 counterexample: with the contingency URL active, a destination
network failure makes `handleSankhyaError` switch back to the primary URL
— the code does *not* stay on the contingency. -/
theorem contingency_transient_counterexample :
    cfgDefault.contingencyUrl = some "http://contingency" ∧
    stOnContingency.sankhyaUrl = "http://contingency" ∧
    (handleSankhyaError cfgDefault stOnContingency).sankhyaUrl = "http://primary" ∧
    "http://primary" ≠ "http://contingency" :=
  ⟨rfl, rfl, rfl, by decide⟩

/-- C4 amended: whenever the contingency endpoint is active and a
destination network failure occurs, the controller returns to the primary
URL and resets the failure counter (leaving the cache untouched). -/
theorem contingency_transient_falls_back (cfg : SankhyaCfg) (cont : String)
    (st : JobState) (hc : cfg.contingencyUrl = some cont)
    (hurl : st.sankhyaUrl ≠ cfg.url) :
    (handleSankhyaError cfg st).sankhyaUrl = cfg.url ∧
    (handleSankhyaError cfg st).primaryLoginAttempts = 0 ∧
    (handleSankhyaError cfg st).cache = st.cache := by
  unfold handleSankhyaError
  rw [hc]
  simp only [if_neg hurl]
  exact ⟨trivial, trivial, trivial⟩

/-- Witness for the amended C4: the concrete contingency state goes back
to the primary. -/
theorem contingency_transient_falls_back_witness :
    (handleSankhyaError cfgDefault stOnContingency).sankhyaUrl = "http://primary" ∧
    (handleSankhyaError cfgDefault stOnContingency).primaryLoginAttempts = 0 ∧
    (handleSankhyaError cfgDefault stOnContingency).cache = stOnContingency.cache :=
  contingency_transient_falls_back cfgDefault "http://contingency" stOnContingency rfl
    (by decide)

/-- C7: re-running the Mapper/Deduplicator on the batch left by a first
run, with the same four query results, yields the same two filtered output
lists, and neither run changes the cached batch. -/
theorem mapper_idempotent (b : List StdPosition) (vm im : List (String × Int))
    (vh ih2 : List (Int × String)) :
    (processPositions (processPositions b vm im vh ih2).batchAfter vm im vh ih2).newVehicleRecords
      = (processPositions b vm im vh ih2).newVehicleRecords ∧
    (processPositions (processPositions b vm im vh ih2).batchAfter vm im vh ih2).newIscaRecords
      = (processPositions b vm im vh ih2).newIscaRecords ∧
    (processPositions b vm im vh ih2).batchAfter = b ∧
    (processPositions (processPositions b vm im vh ih2).batchAfter vm im vh ih2).batchAfter = b :=
  ⟨rfl, rfl, rfl, rfl⟩

/-- One event-loop turn preserves the single-flight invariant. -/
theorem sessionStep_inv (st : SessionMgrState) (e : SessionEvent)
    (h : sessionInv st) : sessionInv (sessionStep st e) := by
  unfold sessionInv at h ⊢
  cases e with
  | callLogin =>
    cases hp : st.loginPromise with
    | false =>
      rw [hp] at h
      simp only [if_neg Bool.false_ne_true] at h
      cases hs : st.jsessionid.isSome with
      | true => simpa [sessionStep, hp, hs] using h
      | false => simp [sessionStep, hp, hs, h]
    | true =>
      rw [hp] at h
      simpa [sessionStep, hp] using h
  | loginSettles ok tok =>
    cases hp : st.loginPromise with
    | true =>
      rw [hp] at h
      simp only [if_pos rfl] at h
      simp [sessionStep, hp, h]
    | false =>
      rw [hp] at h
      simpa [sessionStep, hp] using h
  | invalidate => simpa [sessionStep] using h

/-- The invariant holds along any event sequence. -/
theorem runSessionEvents_inv_aux :
    ∀ (evs : List SessionEvent) (st : SessionMgrState),
      sessionInv st → sessionInv (evs.foldl sessionStep st)
  | [], _, h => h
  | e :: evs, st, h => runSessionEvents_inv_aux evs (sessionStep st e) (sessionStep_inv st e h)

/-- C8: along every sequence of event-loop turns from start-up, at most
one `performLogin` call is ever in flight — a stored login promise is
awaited by further callers, never duplicated. -/
theorem single_flight_login (evs : List SessionEvent) :
    (runSessionEvents evs).loginsInFlight ≤ 1 := by
  have h := runSessionEvents_inv_aux evs initialSessionMgr rfl
  unfold sessionInv at h
  rw [runSessionEvents, h]
  split <;> omega

/-- C5: a request made with a stored session that answers the exact
unauthorized signal is retried exactly once after one fresh login; the
retry's body is returned on success and its failure is propagated — no
further retry happens. -/
theorem unauthorized_retry_once (s tok : String) (il : Option String)
    (resp2 : SankhyaResp) :
    (makeRequest ⟨some s⟩ il (some tok) SankhyaResp.naoAutorizado resp2).postCount = 2 ∧
    (makeRequest ⟨some s⟩ il (some tok) SankhyaResp.naoAutorizado resp2).loginCount = 1 ∧
    (∀ b, resp2 = SankhyaResp.ok b →
      (makeRequest ⟨some s⟩ il (some tok) SankhyaResp.naoAutorizado resp2).result
        = Except.ok b) ∧
    ((∀ b, resp2 ≠ SankhyaResp.ok b) →
      ∃ e, (makeRequest ⟨some s⟩ il (some tok) SankhyaResp.naoAutorizado resp2).result
        = Except.error e) := by
  cases resp2 with
  | ok body =>
    refine ⟨rfl, rfl, ?_, ?_⟩
    · intro b hb
      cases hb
      rfl
    · intro hno
      exact absurd rfl (hno body)
  | naoAutorizado =>
    refine ⟨rfl, rfl, ?_, ?_⟩
    · intro b hb
      cases hb
    · intro _
      exact ⟨_, rfl⟩
  | failStatus m =>
    refine ⟨rfl, rfl, ?_, ?_⟩
    · intro b hb
      cases hb
    · intro _
      exact ⟨_, rfl⟩
  | netError =>
    refine ⟨rfl, rfl, ?_, ?_⟩
    · intro b hb
      cases hb
    · intro _
      exact ⟨_, rfl⟩

/-- Witness for C5: the concrete retried request posts twice, logs in
once and returns the retry's body. -/
theorem unauthorized_retry_once_witness :
    (makeRequest ⟨some "sid"⟩ none (some "tok2") SankhyaResp.naoAutorizado
      (SankhyaResp.ok "B")).result = Except.ok "B" :=
  (unauthorized_retry_once "sid" "tok2" none (SankhyaResp.ok "B")).2.2.1 "B" rfl

/-- The staleness test of the selection loop agrees with the
specification's test once the identifier has resolved. -/
theorem keep_eq_spec (vm : String → Option Int) (lm : Int → Option Nat)
    (pos : VehiclePosition) (c : Int) (hv : vm pos.plate = some c) :
    (match lm c with
      | none => true
      | some lastTime => jsDateAfter (parseAtualcargoDate pos.date) lastTime)
      = specKeepsPosition vm lm pos := by
  cases hl : lm c with
  | none => simp [specKeepsPosition, hv, hl]
  | some last =>
    cases hp : parseAtualcargoDate pos.date with
    | none => simp [specKeepsPosition, jsDateAfter, hv, hl, hp]
    | some t => simp [specKeepsPosition, jsDateAfter, hv, hl, hp]

/-- C1 (amended): the batch handed to the destination write by
`savePositionsToSankhya` is exactly the specification batch restricted to
nonzero resolved identities — a record enters the write iff its plate
resolves to a *nonzero* vehicle code and either no committed timestamp
exists for that code or the record's parsed timestamp is strictly later. -/
theorem vehicle_batch_characterization (vm : String → Option Int)
    (lm : Int → Option Nat) (now : String) (ps : List VehiclePosition) :
    (savePositionsToSankhya vm lm now ps).recordsToSave
      = specBatchNonzero vm lm now ps := by
  induction ps with
  | nil => rfl
  | cons pos rest ih =>
    unfold specBatchNonzero at ih ⊢
    rw [List.filterMap_cons]
    unfold savePositionsToSankhya
    cases hv : vm pos.plate with
    | none => simpa [hv] using ih
    | some c =>
      by_cases hc : c = 0
      · subst hc
        simpa [hv] using ih
      · have hkeep := keep_eq_spec vm lm pos c hv
        cases hk : specKeepsPosition vm lm pos with
        | true =>
          rw [hk] at hkeep
          simp only [hv, hc, hk, parseAtualcargoDateJS, hkeep, ne_eq,
            not_false_iff, if_true, Bool.true_and, Bool.and_self]
          simpa using ih
        | false =>
          rw [hk] at hkeep
          simp only [hv, hc, hk, parseAtualcargoDateJS, hkeep, ne_eq,
            not_false_iff, if_true, Bool.and_false, Bool.false_and]
          simpa using ih

/-- C1 counterexample: a plate that resolves to the destination identity
`0` with no committed timestamp.  The claim's inclusion condition holds
(the identifier resolves, and no prior timestamp exists) yet the code
stages nothing: `if (codveiculo)` treats the identity `0` as unmapped. -/
theorem vehicle_batch_zero_identity_counterexample :
    vmZero posValid.plate = some 0 ∧
    lmEmpty 0 = none ∧
    specBatch vmZero lmEmpty "now" [posValid] = [buildRecord posValid 0 "now"] ∧
    (savePositionsToSankhya vmZero lmEmpty "now" [posValid]).recordsToSave = [] ∧
    (savePositionsToSankhya vmZero lmEmpty "now" [posValid]).recordsToSave
      ≠ specBatch vmZero lmEmpty "now" [posValid] := by
  refine ⟨rfl, rfl, rfl, rfl, ?_⟩
  intro h
  have h' : ([] : List SankhyaRecord) = [buildRecord posValid 0 "now"] := h
  exact List.noConfusion h'

/-- C6 (code bug): a record whose timestamp string does not parse to a
valid instant is *not* dropped when no committed timestamp exists for its
identity: `new Date` yields an Invalid Date object, which is truthy, so
`if (!newPositionDate)` never fires for a string input and the `NaN`
comparison path falls through to the no-prior-timestamp branch.  The
record lands in the write batch and the invalid-date counter stays 0. -/
theorem invalid_date_committed_bug :
    parseAtualcargoDate posBadDate.date = none ∧
    (savePositionsToSankhya vmFiftyFive lmEmpty "now" [posBadDate]).recordsToSave
      = [buildRecord posBadDate 55 "now"] ∧
    (savePositionsToSankhya vmFiftyFive lmEmpty "now" [posBadDate]).invalidDateCount = 0 ∧
    (savePositionsToSankhya vmFiftyFive lmEmpty "now" [posBadDate]).ignoredCount = 0 :=
  ⟨rfl, rfl, rfl, rfl⟩

/-- If the destination stage reports having processed a batch, that batch
was the (non-empty) cached one. -/
theorem stage_processed_of (cfg : SankhyaCfg) (st : JobState)
    (dest : SankhyaOutcome) (fc : Bool) (b : List StdPosition)
    (h : (runSankhyaStage cfg st dest fc).2.processedBatch = some b) :
    st.cache = some b ∧ b.isEmpty = false := by
  unfold runSankhyaStage at h
  cases hc : st.cache with
  | none =>
    rw [hc] at h
    simp at h
  | some l =>
    rw [hc] at h
    by_cases he : l.isEmpty
    · simp [he] at h
    · have hlb : l = b := by
        cases dest <;> simp [he] at h <;> exact h
      have he' : l.isEmpty = false := by
        revert he
        cases l.isEmpty <;> simp
      exact ⟨by rw [hlb], by rw [← hlb]; exact he'⟩

/-- A cycle starting with a non-empty cached batch never calls the source
fetch and hands exactly the cached batch to the destination stage. -/
theorem cycle_on_cached (cfg : SankhyaCfg) (st : JobState) (fetch : FetchOutcome)
    (dest : SankhyaOutcome) (b : List StdPosition)
    (hc : st.cache = some b) (he : b.isEmpty = false) :
    (runSitraxCycle cfg st fetch dest).2.fetchCalled = false ∧
    (runSitraxCycle cfg st fetch dest).2.processedBatch = some b := by
  unfold runSitraxCycle runSankhyaStage
  rw [hc]
  cases dest <;> simp [he]

/-- Retention through the destination stage itself. -/
theorem stage_retention (cfg : SankhyaCfg) (st : JobState)
    (dest : SankhyaOutcome) (fc : Bool) (b : List StdPosition)
    (hb : (runSankhyaStage cfg st dest fc).2.processedBatch = some b) :
    ((dest = SankhyaOutcome.tokenError ∨ dest = SankhyaOutcome.networkError) →
      (runSankhyaStage cfg st dest fc).1.cache = some b ∧
      ∀ (fetch2 : FetchOutcome) (dest2 : SankhyaOutcome),
        (runSitraxCycle cfg (runSankhyaStage cfg st dest fc).1 fetch2 dest2).2.fetchCalled
          = false ∧
        (runSitraxCycle cfg (runSankhyaStage cfg st dest fc).1 fetch2 dest2).2.processedBatch
          = some b) ∧
    (dest = SankhyaOutcome.success →
      (runSankhyaStage cfg st dest fc).1.cache = none) := by
  obtain ⟨hcache, hne⟩ := stage_processed_of cfg st dest fc b hb
  have hne' : ¬ b.isEmpty := by simp [hne]
  constructor
  · intro hd
    have h1 : (runSankhyaStage cfg st dest fc).1.cache = some b := by
      rcases hd with rfl | rfl
      · unfold runSankhyaStage
        rw [hcache]
        simpa [hne'] using hcache
      · unfold runSankhyaStage
        rw [hcache]
        simpa [hne', handleSankhyaError_cache] using hcache
    refine ⟨h1, ?_⟩
    intro fetch2 dest2
    exact cycle_on_cached cfg _ fetch2 dest2 b h1 hne
  · rintro rfl
    unfold runSankhyaStage
    rw [hcache]
    simp [hne']

/-- C2: whenever a cycle's destination phase runs on a batch and fails
with a destination session/auth error or any other (network) error, the
fetch cache still holds exactly that batch afterwards, and every following
cycle skips the source fetch and retries the destination phase with the
identical batch; the cache is cleared when the destination phase fully
succeeds. -/
theorem cache_retention (cfg : SankhyaCfg) (st : JobState)
    (fetch : FetchOutcome) (dest : SankhyaOutcome) (b : List StdPosition)
    (hb : (runSitraxCycle cfg st fetch dest).2.processedBatch = some b) :
    ((dest = SankhyaOutcome.tokenError ∨ dest = SankhyaOutcome.networkError) →
      (runSitraxCycle cfg st fetch dest).1.cache = some b ∧
      ∀ (fetch2 : FetchOutcome) (dest2 : SankhyaOutcome),
        (runSitraxCycle cfg (runSitraxCycle cfg st fetch dest).1 fetch2 dest2).2.fetchCalled
          = false ∧
        (runSitraxCycle cfg (runSitraxCycle cfg st fetch dest).1 fetch2 dest2).2.processedBatch
          = some b) ∧
    (dest = SankhyaOutcome.success →
      (runSitraxCycle cfg st fetch dest).1.cache = none) := by
  cases hc : st.cache with
  | some l =>
    have hcyc : runSitraxCycle cfg st fetch dest = runSankhyaStage cfg st dest false := by
      unfold runSitraxCycle
      rw [hc]
    rw [hcyc] at hb ⊢
    exact stage_retention cfg st dest false b hb
  | none =>
    cases fetch with
    | sitraxError =>
      unfold runSitraxCycle at hb
      rw [hc] at hb
      simp at hb
    | positions l =>
      by_cases he : l.isEmpty
      · unfold runSitraxCycle at hb
        rw [hc] at hb
        simp [he] at hb
      · have hne : l ≠ [] := by simpa using he
        have hcyc : runSitraxCycle cfg st (FetchOutcome.positions l) dest
            = runSankhyaStage cfg { st with cache := some l } dest true := by
          unfold runSitraxCycle
          rw [hc]
          simp [hne]
        rw [hcyc] at hb ⊢
        exact stage_retention cfg { st with cache := some l } dest true b hb

/-- Witness for C2: a destination session error on a cached one-record
batch leaves the cache holding exactly that batch. -/
theorem cache_retention_witness :
    (runSitraxCycle cfgDefault stCachedBatch FetchOutcome.sitraxError
      SankhyaOutcome.tokenError).1.cache
      = some [{ type := "isca", identifier := "ISCA3969", date := "2025-11-03 11:38:12" }] :=
  ((cache_retention cfgDefault stCachedBatch FetchOutcome.sitraxError
    SankhyaOutcome.tokenError _ rfl).1 (Or.inl rfl)).1

/-- C9: `formatSankhyaDate` is total.  On an input that splits into a full
date part `Y-M-D` (all components non-empty) and a non-empty time part it
returns `D/M/Y time` with the same components; when the time part or a
date component is missing it returns the current pt-BR date-time (`now`)
instead of failing. -/
theorem format_date_total :
    (∀ (apiDate now dp tp y m d : String),
      jsSplit apiDate ' ' = [dp, tp] → jsSplit dp '-' = [y, m, d] →
      y ≠ "" → m ≠ "" → d ≠ "" → tp ≠ "" →
      formatSankhyaDate apiDate now = d ++ "/" ++ m ++ "/" ++ y ++ " " ++ tp) ∧
    (∀ (apiDate now : String),
      (jsSplit apiDate ' ').get? 1 = none →
      formatSankhyaDate apiDate now = now) ∧
    (∀ (apiDate now : String),
      (jsSplit (((jsSplit apiDate ' ').get? 0).getD "") '-').get? 2 = none →
      formatSankhyaDate apiDate now = now) := by
  refine ⟨?_, ?_, ?_⟩
  · intro apiDate now dp tp y m d h1 h2 hy hm hd htp
    simp [formatSankhyaDate, h1, h2, truthyStr, hy, hm, hd, htp]
  · intro apiDate now h
    simp only [List.get?_eq_getElem?] at h
    simp [formatSankhyaDate, h, truthyStr]
  · intro apiDate now h
    simp only [List.get?_eq_getElem?] at h
    simp [formatSankhyaDate, h, truthyStr]

/-- Witness for C9: the well-formed Scenario A date is reordered, and an
input with no time part falls back to the current date-time. -/
theorem format_date_total_witness :
    formatSankhyaDate "2025-11-03 08:38:12" "31/12/2075 00:00:00" = "03/11/2025 08:38:12" ∧
    formatSankhyaDate "2025-11-03" "31/12/2075 00:00:00" = "31/12/2075 00:00:00" := by
  constructor
  · have h := format_date_total.1 "2025-11-03 08:38:12" "31/12/2075 00:00:00"
      "2025-11-03" "08:38:12" "2025" "11" "03" rfl rfl
      (by decide) (by decide) (by decide) (by decide)
    rw [h]
    rfl
  · exact format_date_total.2.1 "2025-11-03" "31/12/2075 00:00:00" rfl

/-- Reading the key just written yields the new record. -/
theorem lookupEntry_setEntry_self (m : List (String × JobStatusEntry))
    (k : String) (v : JobStatusEntry) :
    lookupEntry (setEntry m k v) k = some v := by
  induction m with
  | nil => simp [setEntry, lookupEntry, List.find?]
  | cons e rest ih =>
    obtain ⟨a, b⟩ := e
    by_cases hk : a = k
    · subst hk
      simp [setEntry, lookupEntry, List.find?]
    · simp only [setEntry, if_neg hk, lookupEntry, List.find?]
      rw [decide_eq_false hk]
      simpa [lookupEntry] using ih

/-- Writing one key leaves every other key's record unchanged. -/
theorem lookupEntry_setEntry_ne (m : List (String × JobStatusEntry))
    (k k' : String) (v : JobStatusEntry) (h : k' ≠ k) :
    lookupEntry (setEntry m k v) k' = lookupEntry m k' := by
  have h' : ¬(k = k') := fun hh => h hh.symm
  induction m with
  | nil => simp [setEntry, lookupEntry, List.find?, h']
  | cons e rest ih =>
    obtain ⟨a, b⟩ := e
    by_cases hk : a = k
    · subst hk
      simp [setEntry, lookupEntry, List.find?, h']
    · by_cases ha : a = k'
      · subst ha
        simp [setEntry, lookupEntry, List.find?, hk]
      · simp only [setEntry, if_neg hk, lookupEntry, List.find?]
        rw [decide_eq_false ha]
        simpa [lookupEntry, List.find?, ha] using ih

/-- C10: after any `updateJobStatus` call with a status other than
`'idle'`, the stored record for that job has `nextRun = null`; and the
map-wide invariant "a non-null `nextRun` only occurs on records whose
status is `'idle'`" is preserved by every call. -/
theorem nextRun_null_unless_idle :
    (∀ (m : List (String × JobStatusEntry)) (jobName status message : String)
        (ts : Option Int) (now : String) (r : JobStatusEntry),
      status ≠ "idle" →
      lookupEntry (updateJobStatus m jobName status message ts now) (jsToLowerCase jobName)
        = some r →
      r.nextRun = none) ∧
    (∀ (m : List (String × JobStatusEntry)) (jobName status message : String)
        (ts : Option Int) (now : String),
      (∀ k r, lookupEntry m k = some r → r.nextRun ≠ none → r.status = "idle") →
      ∀ k r, lookupEntry (updateJobStatus m jobName status message ts now) k = some r →
        r.nextRun ≠ none → r.status = "idle") := by
  constructor
  · intro m jobName status message ts now r hst hlk
    unfold updateJobStatus at hlk
    rw [lookupEntry_setEntry_self] at hlk
    cases hlk
    simp [hst]
  · intro m jobName status message ts now hinv k r hlk hnr
    by_cases hk : k = jsToLowerCase jobName
    · subst hk
      unfold updateJobStatus at hlk
      rw [lookupEntry_setEntry_self] at hlk
      cases hlk
      by_cases hst : status = "idle"
      · exact hst
      · exact absurd (by simp [hst]) hnr
    · unfold updateJobStatus at hlk
      rw [lookupEntry_setEntry_ne _ _ _ _ hk] at hlk
      exact hinv k r hlk hnr

/-- Witness for C10: a `'running'` update stores `nextRun = null` even
though a timestamp argument was supplied. -/
theorem nextRun_null_unless_idle_witness :
    ∃ r, lookupEntry (updateJobStatus [] "Sitrax" "running" "msg" (some 5) "now") "sitrax"
      = some r ∧ r.nextRun = none := by
  refine ⟨{ name := "Sitrax", status := "running", message := "msg"
            lastUpdate := "now", nextRun := none }, rfl, ?_⟩
  exact nextRun_null_unless_idle.1 [] "Sitrax" "running" "msg" (some 5) "now" _
    (by decide) rfl

end Rastreadores
